import Mathlib

/-!
Verification of the actor/critic networks and CLI glue of a TD3 agent for
BipedalWalker (source files `archs/trsf_models.py` and `td3_mlp.py`).

Real-valued tensors are embedded as functions `Fin n → ℝ`; a batch is treated
one sample at a time, since every operation in the source acts independently on
each sample of the batch.  Layers carry their parameters explicitly.
-/

namespace TD3Walker

/-- An affine layer, `torch.nn.Linear`: `y i = (Σ j, W i j * x j) + b i`. -/
noncomputable def linear {m n : ℕ} (W : Fin m → Fin n → ℝ) (b : Fin m → ℝ)
    (x : Fin n → ℝ) : Fin m → ℝ :=
  fun i => (∑ j, W i j * x j) + b i

/-- `torch.nn.LayerNorm` over the last dimension with learnable affine
parameters `g` (weight) and `be` (bias): normalize by mean and (biased)
variance, then scale and shift. -/
noncomputable def layerNorm (n : ℕ) (eps : ℝ) (g be : Fin n → ℝ)
    (x : Fin n → ℝ) : Fin n → ℝ :=
  let mu := (∑ j, x j) / n
  let var := (∑ j, (x j - mu) ^ 2) / n
  fun i => (x i - mu) / Real.sqrt (var + eps) * g i + be i

/-- `torch.clamp(x, min=lo, max=hi)`. -/
noncomputable def clamp (lo hi x : ℝ) : ℝ := min (max x lo) hi

/-- `torch.nn.PReLU` with per-channel slope `a`: `x` for `x ≥ 0`, `a*x` below. -/
noncomputable def prelu (a x : ℝ) : ℝ := max 0 x + a * min 0 x

/-- `torch.distributions.Normal(mu, sigma).log_prob x`:
`-(x-mu)^2/(2 sigma^2) - log sigma - log sqrt(2 pi)`. -/
noncomputable def normalLogProb (mu sigma x : ℝ) : ℝ :=
  -((x - mu) ^ 2) / (2 * sigma ^ 2) - Real.log sigma -
    Real.log (Real.sqrt (2 * Real.pi))

/-- `tanh` maps every real strictly inside `(-1, 1)`. -/
theorem tanh_mem_Ioo (x : ℝ) : -1 < Real.tanh x ∧ Real.tanh x < 1 := by
  rw [Real.tanh_eq_sinh_div_cosh]
  constructor
  · rw [lt_div_iff₀ (Real.cosh_pos x)]
    have h := Real.exp_pos x
    rw [← Real.cosh_add_sinh x] at h
    linarith
  · rw [div_lt_one (Real.cosh_pos x)]
    exact Real.sinh_lt_cosh x

/-- `StableTransformerEncoder` from `archs/trsf_models.py`.  The input
embedding (`nn.Linear` → `nn.LayerNorm` → `nn.Tanh`) is translated from the
source.  The fields `pos` and `block` stand for `PositionalEncoding` and
`StableTransformerLayer`, which `trsf_models.py` imports from
`archs/utils/stable_transformer.py`, a file not present in the sources:
`pos` is the positional table ("a positional signal ... indexed by position",
per the spec) and `block` is the "one self-attention+feed-forward block".
A sequence holds `seqLen + 1` timesteps so that the last one always exists. -/
structure StableTransformerEncoder (dIn dModel seqLen : ℕ) where
  embW : Fin dModel → Fin dIn → ℝ
  embB : Fin dModel → ℝ
  lnEps : ℝ
  lnWeight : Fin dModel → ℝ
  lnBias : Fin dModel → ℝ
  pos : Fin (seqLen + 1) → Fin dModel → ℝ
  block : (Fin (seqLen + 1) → Fin dModel → ℝ) → Fin (seqLen + 1) → Fin dModel → ℝ

/-- `self.inp_embedding`: linear projection to `d_model`, layer norm, `tanh`,
applied to one timestep's feature vector. -/
noncomputable def StableTransformerEncoder.inpEmbedding {dIn dModel seqLen : ℕ}
    (E : StableTransformerEncoder dIn dModel seqLen) (v : Fin dIn → ℝ) :
    Fin dModel → ℝ :=
  fun i => Real.tanh (layerNorm dModel E.lnEps E.lnWeight E.lnBias
    (linear E.embW E.embB v) i)

/-- `StableTransformerEncoder.forward`: embed each timestep, add the
positional signal, run the attention block, keep the last timestep
(`x[:, -1]`). -/
noncomputable def StableTransformerEncoder.forward {dIn dModel seqLen : ℕ}
    (E : StableTransformerEncoder dIn dModel seqLen)
    (src : Fin (seqLen + 1) → Fin dIn → ℝ) : Fin dModel → ℝ :=
  let x1 := fun t => E.inpEmbedding (src t)
  let x2 := fun t i => x1 t i + E.pos t i
  let x3 := E.block x2
  x3 (Fin.last seqLen)

/-- Modelled from the spec: the sequence-encoder contract, written from the
words of the spec ("project each timestep's features into `d_model` via a
learned linear map followed by normalization and a bounded nonlinearity; add a
positional signal indexed by position; pass through one
self-attention+feed-forward block; retain only the representation at the final
time step as the embedding"). -/
noncomputable def encoderContract {dIn dModel seqLen : ℕ}
    (E : StableTransformerEncoder dIn dModel seqLen)
    (src : Fin (seqLen + 1) → Fin dIn → ℝ) : Fin dModel → ℝ :=
  E.block (fun t i => E.inpEmbedding (src t) i + E.pos t i) (Fin.last seqLen)

/-- The `Actor` network of `archs/trsf_models.py`.  `d_model` is 96 as in the
source.  The `log_std` head exists in the source only when `stochastic=True`;
here it is always carried and is simply unused in deterministic mode. -/
structure Actor (stateDim actionDim seqLen : ℕ) where
  state_encoder : StableTransformerEncoder stateDim 96 seqLen
  fcW : Fin actionDim → Fin 96 → ℝ
  fcB : Fin actionDim → ℝ
  logStdW : Fin actionDim → Fin 96 → ℝ
  logStdB : Fin actionDim → ℝ
  stochastic : Bool

/-- Result of `Actor.forward`: a bare action in deterministic mode, an
(action, entropy) pair in stochastic mode. -/
inductive ActorOutput (actionDim : ℕ) where
  | deterministic (actions : Fin actionDim → ℝ)
  | stochasticOut (actions : Fin actionDim → ℝ) (entropy : ℝ)

namespace Actor

variable {stateDim actionDim seqLen : ℕ}

/-- `s = self.state_encoder(state)`. -/
noncomputable def encode (A : Actor stateDim actionDim seqLen)
    (state : Fin (seqLen + 1) → Fin stateDim → ℝ) : Fin 96 → ℝ :=
  A.state_encoder.forward state

/-- `self.fc(s)`: the mean head (also the deterministic head). -/
noncomputable def means (A : Actor stateDim actionDim seqLen)
    (state : Fin (seqLen + 1) → Fin stateDim → ℝ) : Fin actionDim → ℝ :=
  linear A.fcW A.fcB (A.encode state)

/-- `self.log_std(s)`: the raw log-std head output, before clamping. -/
noncomputable def logStdsRaw (A : Actor stateDim actionDim seqLen)
    (state : Fin (seqLen + 1) → Fin stateDim → ℝ) : Fin actionDim → ℝ :=
  linear A.logStdW A.logStdB (A.encode state)

/-- `stds = torch.clamp(log_stds, min=-10.0, max=2.0).exp()`. -/
noncomputable def stds (A : Actor stateDim actionDim seqLen)
    (state : Fin (seqLen + 1) → Fin stateDim → ℝ) : Fin actionDim → ℝ :=
  fun i => Real.exp (clamp (-10) 2 (A.logStdsRaw state i))

/-- The pre-squash Gaussian value `x`: a reparameterized sample
`means + stds * xi` (with `xi` the standard-normal draw made explicit) when
exploring, the mean itself otherwise. -/
noncomputable def preSquash (A : Actor stateDim actionDim seqLen)
    (state : Fin (seqLen + 1) → Fin stateDim → ℝ) (explore : Bool)
    (xi : Fin actionDim → ℝ) : Fin actionDim → ℝ :=
  if explore then fun i => A.means state i + A.stds state i * xi i
  else A.means state

/-- `log_probs = dists.log_prob(x) - torch.log(1 - actions.pow(2) + 1e-6)`
with `actions = tanh(x)`. -/
noncomputable def logProbs (A : Actor stateDim actionDim seqLen)
    (state : Fin (seqLen + 1) → Fin stateDim → ℝ) (explore : Bool)
    (xi : Fin actionDim → ℝ) : Fin actionDim → ℝ :=
  fun i => normalLogProb (A.means state i) (A.stds state i)
      (A.preSquash state explore xi i) -
    Real.log (1 - Real.tanh (A.preSquash state explore xi i) ^ 2 + 1e-6)

/-- `Actor.forward`.  In stochastic mode it returns the tanh-squashed sample
together with `entropies = -log_probs.sum(dim=1)`; in deterministic mode it
returns `tanh(self.fc(s))`. -/
noncomputable def forward (A : Actor stateDim actionDim seqLen)
    (state : Fin (seqLen + 1) → Fin stateDim → ℝ) (explore : Bool)
    (xi : Fin actionDim → ℝ) : ActorOutput actionDim :=
  if A.stochastic then
    ActorOutput.stochasticOut
      (fun i => Real.tanh (A.preSquash state explore xi i))
      (-∑ i, A.logProbs state explore xi i)
  else
    ActorOutput.deterministic (fun i => Real.tanh (A.means state i))

end Actor

/-- The `Critic` network of `archs/trsf_models.py`: state encoder into 96
dimensions, `fc2 : Linear(96 + action_dim, 128)` followed by a per-channel
`PReLU(128)`, and a scalar output head `fc_out : Linear(128, 1)` whose single
row is `fcOutW` and whose bias is `fcOutB`. -/
structure Critic (stateDim actionDim seqLen : ℕ) where
  state_encoder : StableTransformerEncoder stateDim 96 seqLen
  fc2W : Fin 128 → Fin (96 + actionDim) → ℝ
  fc2B : Fin 128 → ℝ
  preluA : Fin 128 → ℝ
  fcOutW : Fin 128 → ℝ
  fcOutB : ℝ

namespace Critic

variable {stateDim actionDim seqLen : ℕ}

/-- The hidden activation `x = self.act(self.fc2(torch.cat((s, action))))`. -/
noncomputable def hidden (C : Critic stateDim actionDim seqLen)
    (state : Fin (seqLen + 1) → Fin stateDim → ℝ)
    (action : Fin actionDim → ℝ) : Fin 128 → ℝ :=
  fun i => prelu (C.preluA i)
    (linear C.fc2W C.fc2B
      (Fin.append (C.state_encoder.forward state) action) i)

/-- `Critic.forward`: `x = self.fc_out(x) * 10`, one scalar per sample. -/
noncomputable def forward (C : Critic stateDim actionDim seqLen)
    (state : Fin (seqLen + 1) → Fin stateDim → ℝ)
    (action : Fin actionDim → ℝ) : ℝ :=
  ((∑ j, C.fcOutW j * C.hidden state action j) + C.fcOutB) * 10

/-- The source's initialization of the critic's output head
(`nn.init.uniform_(self.fc_out.weight, -0.003, +0.003)` and
`self.fc_out.bias.data.fill_(0.0)`): the weights lie in the support of the
uniform draw and the bias is zero. -/
def headInit (C : Critic stateDim actionDim seqLen) : Prop :=
  (∀ j, C.fcOutW j ∈ Set.Icc (-0.003 : ℝ) 0.003) ∧ C.fcOutB = 0

/-- Modelled from the spec: the critic contract written from the words of the
spec ("encode state to embedding; concatenate embedding with raw action; pass
through a hidden linear+nonlinearity layer; project to scalar", "scaled by a
fixed multiplier (×10)"). -/
noncomputable def contract (C : Critic stateDim actionDim seqLen)
    (state : Fin (seqLen + 1) → Fin stateDim → ℝ)
    (action : Fin actionDim → ℝ) : ℝ :=
  let embedding := C.state_encoder.forward state
  let joined := Fin.append embedding action
  let hid := fun i => prelu (C.preluA i) (linear C.fc2W C.fc2B joined i)
  10 * ((∑ j, C.fcOutW j * hid j) + C.fcOutB)

end Critic

/-! Module-level glue of `td3_mlp.py`: checkpoint loading in test mode and the
argparse-based CLI dispatch.  Loading a `.pth` file with `torch.load` +
`load_state_dict` is a fallible external operation; it is embedded as a
function `load : String → Except E P` from file names to either an error or a
loaded parameter set `P`. -/

/-- The checkpoint file name built in `td3_mlp.py`:
`os.path.join("models", rl_type, "_".join([tag, model_type, role + ".pth"]))`
with `rl_type = "td3"` and `model_type = "mlp"`. -/
def ckptFile (tag role : String) : String :=
  "models/td3/" ++ tag ++ "_mlp_" ++ role ++ ".pth"

/-- Loading the actor, critic_1 and critic_2 checkpoints of one tag ("best" or
"last") in the order the source performs the three `load_state_dict` calls;
the first failure aborts the remaining loads. -/
def loadTriple {E P : Type} (load : String → Except E P) (tag : String) :
    Except E (P × P × P) :=
  match load (ckptFile tag "actor") with
  | Except.error e => Except.error e
  | Except.ok a =>
      match load (ckptFile tag "critic_1") with
      | Except.error e => Except.error e
      | Except.ok c1 =>
          match load (ckptFile tag "critic_2") with
          | Except.error e => Except.error e
          | Except.ok c2 => Except.ok (a, c1, c2)

/-- The test-mode loading of `td3_mlp.py`: a `try` block loading the three
"best" files; a bare `except:` that, on any failure, loads the three "last"
files, whose own failure propagates with no further handler. -/
def testModeLoad {E P : Type} (load : String → Except E P) :
    Except E (P × P × P) :=
  match loadTriple load "best" with
  | Except.ok r => Except.ok r
  | Except.error _ => loadTriple load "last"

/-- Outcome of parsing the `-f` (`--flag`) argument with
`argparse` (`choices=["train", "test"]`, `default="train"`): a valid or
defaulted value is parsed; an invalid choice makes argparse print its usage
message and raise `SystemExit(2)`. -/
inductive FlagParse where
  | parsed (flag : String)
  | usageExit (code : ℕ)
deriving DecidableEq

/-- `parser.parse_args()` restricted to the `-f` (`--flag`) argument, `arg` being
the value supplied on the command line (`none` when absent). -/
def argparseFlag (arg : Option String) : FlagParse :=
  match arg with
  | none => FlagParse.parsed "train"
  | some v =>
      if v = "train" ∨ v = "test" then FlagParse.parsed v
      else FlagParse.usageExit 2

/-- What the module-level dispatch of `td3_mlp.py` does after parsing:
run training, run testing, print `"Wrong flag!"` and fall off the end of the
script, or terminate during argument parsing with an exit status. -/
inductive ProgramStep where
  | runTrain
  | runTest
  | printWrongFlag
  | exitWithCode (code : ℕ)
deriving DecidableEq

/-- The mode dispatch of `td3_mlp.py`: argparse first, then
`if args.flag == "train": ... elif args.flag == "test": ... else:
print("Wrong flag!")`. -/
def td3MlpDispatch (arg : Option String) : ProgramStep :=
  match argparseFlag arg with
  | FlagParse.usageExit c => ProgramStep.exitWithCode c
  | FlagParse.parsed f =>
      if f = "train" then ProgramStep.runTrain
      else if f = "test" then ProgramStep.runTest
      else ProgramStep.printWrongFlag

/-! Concrete instances used to exercise the theorems on closed inputs. -/

/-- A concrete encoder (`d_in = 1`, one timestep) with zero weights, identity
attention block and zero positional table. -/
noncomputable def encEx : StableTransformerEncoder 1 96 0 where
  embW := fun _ _ => 0
  embB := fun _ => 0
  lnEps := 1e-5
  lnWeight := fun _ => 1
  lnBias := fun _ => 0
  pos := fun _ _ => 0
  block := fun x => x

/-- A concrete deterministic-mode actor. -/
noncomputable def actorDetEx : Actor 1 1 0 where
  state_encoder := encEx
  fcW := fun _ _ => 0
  fcB := fun _ => 0
  logStdW := fun _ _ => 0
  logStdB := fun _ => 0
  stochastic := false

/-- A concrete stochastic-mode actor. -/
noncomputable def actorStochEx : Actor 1 1 0 where
  state_encoder := encEx
  fcW := fun _ _ => 0
  fcB := fun _ => 0
  logStdW := fun _ _ => 0
  logStdB := fun _ => 0
  stochastic := true

/-- An all-zero one-timestep state sequence. -/
noncomputable def stateEx : Fin 1 → Fin 1 → ℝ := fun _ _ => 0

/-- A concrete standard-normal draw. -/
noncomputable def xiEx : Fin 1 → ℝ := fun _ => 0

/-! ## C1 -/

/-- C1: for every state, the deterministic-mode actor's forward pass returns
the action obtained by encoding the state, applying the linear head `fc` and
applying `tanh`, and every action component lies strictly in `(-1, 1)`. -/
theorem C1_actor_deterministic_range {stateDim actionDim seqLen : ℕ}
    (A : Actor stateDim actionDim seqLen) (hdet : A.stochastic = false)
    (state : Fin (seqLen + 1) → Fin stateDim → ℝ) (explore : Bool)
    (xi : Fin actionDim → ℝ) :
    ∃ a, A.forward state explore xi = ActorOutput.deterministic a
      ∧ a = (fun i =>
          Real.tanh (linear A.fcW A.fcB (A.state_encoder.forward state) i))
      ∧ ∀ i, -1 < a i ∧ a i < 1 := by
  refine ⟨fun i => Real.tanh (A.means state i), ?_, rfl, ?_⟩
  · simp [Actor.forward, hdet]
  · intro i
    exact tanh_mem_Ioo _

/-- C1, exercised: the deterministic-mode contract at a concrete actor and
state. -/
theorem C1_witness :
    ∃ a, actorDetEx.forward stateEx true xiEx = ActorOutput.deterministic a
      ∧ a = (fun i => Real.tanh
          (linear actorDetEx.fcW actorDetEx.fcB
            (actorDetEx.state_encoder.forward stateEx) i))
      ∧ ∀ i, -1 < a i ∧ a i < 1 :=
  C1_actor_deterministic_range actorDetEx rfl stateEx true xiEx

/-! ## C2 -/

/-- C2: in stochastic mode the forward pass returns a pair `(a, e)` where
`a` is the `tanh`-squashed Gaussian value (every component strictly inside
`(-1, 1)`), the per-dimension log-probability is the Gaussian log-density
corrected by subtracting `log (1 - tanh(x)^2 + 1e-6)`, and `e` is the negated
sum of the corrected log-probabilities over the action dimensions — one
scalar for the sample. -/
theorem C2_actor_stochastic_contract {stateDim actionDim seqLen : ℕ}
    (A : Actor stateDim actionDim seqLen) (hstoch : A.stochastic = true)
    (state : Fin (seqLen + 1) → Fin stateDim → ℝ) (explore : Bool)
    (xi : Fin actionDim → ℝ) :
    ∃ a e, A.forward state explore xi = ActorOutput.stochasticOut a e
      ∧ (∀ i, a i = Real.tanh (A.preSquash state explore xi i))
      ∧ (∀ i, -1 < a i ∧ a i < 1)
      ∧ e = -∑ i, (normalLogProb (A.means state i) (A.stds state i)
            (A.preSquash state explore xi i) -
          Real.log (1 - a i ^ 2 + 1e-6)) := by
  refine ⟨fun i => Real.tanh (A.preSquash state explore xi i),
    -∑ i, A.logProbs state explore xi i, ?_, fun i => rfl, ?_, ?_⟩
  · simp [Actor.forward, hstoch]
  · intro i
    exact tanh_mem_Ioo _
  · simp only [Actor.logProbs]

/-- C2, exercised: the stochastic-mode contract at a concrete actor, state
and noise draw. -/
theorem C2_witness :
    ∃ a e, actorStochEx.forward stateEx true xiEx =
        ActorOutput.stochasticOut a e
      ∧ (∀ i, a i = Real.tanh (actorStochEx.preSquash stateEx true xiEx i))
      ∧ (∀ i, -1 < a i ∧ a i < 1)
      ∧ e = -∑ i, (normalLogProb (actorStochEx.means stateEx i)
            (actorStochEx.stds stateEx i)
            (actorStochEx.preSquash stateEx true xiEx i) -
          Real.log (1 - a i ^ 2 + 1e-6)) :=
  C2_actor_stochastic_contract actorStochEx rfl stateEx true xiEx

/-! ## C3 -/

/-- C3: the standard deviation used by the stochastic policy is obtained by
clamping the log-std head's output elementwise to `[-10, 2]` and then
exponentiating — so it always lies in `[exp (-10), exp 2]`, which would be
false had the clamp been applied to the already-exponentiated value. -/
theorem C3_logstd_clamped_before_exp {stateDim actionDim seqLen : ℕ}
    (A : Actor stateDim actionDim seqLen)
    (state : Fin (seqLen + 1) → Fin stateDim → ℝ) :
    (∀ i, A.stds state i = Real.exp (clamp (-10) 2 (A.logStdsRaw state i)))
    ∧ (∀ i, Real.exp (-10) ≤ A.stds state i ∧ A.stds state i ≤ Real.exp 2) := by
  refine ⟨fun i => rfl, fun i => ⟨?_, ?_⟩⟩
  · apply Real.exp_le_exp.mpr
    exact le_min (le_max_right _ _) (by norm_num)
  · apply Real.exp_le_exp.mpr
    exact min_le_right _ _

/-! ## C9 -/

/-- C9: in deterministic mode `Actor.forward` ignores the `explore` flag (and
the noise draw) entirely: any two calls on the same state return the identical
action. -/
theorem C9_actor_deterministic_ignores_explore {stateDim actionDim seqLen : ℕ}
    (A : Actor stateDim actionDim seqLen) (hdet : A.stochastic = false)
    (state : Fin (seqLen + 1) → Fin stateDim → ℝ) (e1 e2 : Bool)
    (xi1 xi2 : Fin actionDim → ℝ) :
    A.forward state e1 xi1 = A.forward state e2 xi2 := by
  simp [Actor.forward, hdet]

/-- C9, exercised: `explore=True` and `explore=False` coincide on a concrete
deterministic actor. -/
theorem C9_witness :
    actorDetEx.forward stateEx true xiEx =
      actorDetEx.forward stateEx false (fun _ => 1) :=
  C9_actor_deterministic_ignores_explore actorDetEx rfl stateEx true false
    xiEx (fun _ => 1)

/-! ## C10 -/

/-- C10: in stochastic mode with `explore=False`, the forward pass does not
depend on the noise draw — the action is `tanh` of the mean head's output and
the entropy is evaluated at that mean, so the result is a deterministic
function of the state and the parameters. -/
theorem C10_actor_stochastic_mean_mode {stateDim actionDim seqLen : ℕ}
    (A : Actor stateDim actionDim seqLen) (hstoch : A.stochastic = true)
    (state : Fin (seqLen + 1) → Fin stateDim → ℝ)
    (xi1 xi2 : Fin actionDim → ℝ) :
    A.forward state false xi1 = A.forward state false xi2
    ∧ A.forward state false xi1 =
      ActorOutput.stochasticOut (fun i => Real.tanh (A.means state i))
        (-∑ i, (normalLogProb (A.means state i) (A.stds state i)
            (A.means state i) -
          Real.log (1 - Real.tanh (A.means state i) ^ 2 + 1e-6))) := by
  constructor
  · simp [Actor.forward, hstoch, Actor.preSquash, Actor.logProbs]
  · simp [Actor.forward, hstoch, Actor.preSquash, Actor.logProbs]

/-- C10, exercised: two distinct noise draws give the identical pair on a
concrete stochastic actor with `explore=False`. -/
theorem C10_witness :
    actorStochEx.forward stateEx false xiEx =
      actorStochEx.forward stateEx false (fun _ => 1)
    ∧ actorStochEx.forward stateEx false xiEx =
      ActorOutput.stochasticOut
        (fun i => Real.tanh (actorStochEx.means stateEx i))
        (-∑ i, (normalLogProb (actorStochEx.means stateEx i)
            (actorStochEx.stds stateEx i) (actorStochEx.means stateEx i) -
          Real.log (1 - Real.tanh (actorStochEx.means stateEx i) ^ 2
            + 1e-6))) :=
  C10_actor_stochastic_mean_mode actorStochEx rfl stateEx xiEx (fun _ => 1)

/-! ## C4 -/

/-- C4: for every state/action pair the critic returns one scalar computed by
encoding the state, concatenating the embedding with the raw action, applying
the hidden linear layer and its nonlinearity, projecting to a scalar and
multiplying by the fixed factor 10 — i.e. `forward` agrees everywhere with the
contract written from the spec's words; and the source's output-head
initialization puts every head weight in `[-0.003, 0.003]` with zero bias. -/
theorem C4_critic_forward_contract {stateDim actionDim seqLen : ℕ}
    (C : Critic stateDim actionDim seqLen)
    (state : Fin (seqLen + 1) → Fin stateDim → ℝ)
    (action : Fin actionDim → ℝ) :
    C.forward state action = Critic.contract C state action
    ∧ (Critic.headInit C ↔
        ((∀ j, -0.003 ≤ C.fcOutW j ∧ C.fcOutW j ≤ 0.003) ∧ C.fcOutB = 0)) := by
  constructor
  · unfold Critic.forward Critic.contract Critic.hidden
    ring
  · unfold Critic.headInit
    simp [Set.mem_Icc]

/-! ## C5 -/

/-- A concrete critic whose output head lies in the support of the stated
initialization (`|weight| ≤ 0.003`, zero bias) but whose other parameters —
unconstrained by the claim — are: zero `fc2` weights, `fc2` bias `0.1`
(inside the default `±1/sqrt(100)` init range of `nn.Linear`), and the default
PReLU slope `0.25`. -/
noncomputable def criticEx : Critic 1 1 0 where
  state_encoder := encEx
  fc2W := fun _ _ => 0
  fc2B := fun _ => 0.1
  preluA := fun _ => 0.25
  fcOutW := fun _ => 0.002
  fcOutB := 0

/-- A concrete critic with an exactly-zero output head. -/
noncomputable def criticZeroEx : Critic 1 1 0 where
  state_encoder := encEx
  fc2W := fun _ _ => 0
  fc2B := fun _ => 0.1
  preluA := fun _ => 0.25
  fcOutW := fun _ => 0
  fcOutB := 0

/-- An all-zero one-timestep state sequence for the critic. -/
noncomputable def zState : Fin 1 → Fin 1 → ℝ := fun _ _ => 0

/-- An all-zero action. -/
noncomputable def zAction : Fin 1 → ℝ := fun _ => 0

/-- C5 is false as stated: `criticEx` has its output head inside the stated
initialization support, yet on all-zero state and action its Q-value is
`0.256`, outside `±0.03`.  (Each hidden unit is `prelu 0.25 0.1 = 0.1` and the
head sums `128` copies of `0.002 * 0.1`, scaled by 10.) -/
theorem C5_counterexample :
    Critic.headInit criticEx
      ∧ ¬ |Critic.forward criticEx zState zAction| ≤ 0.03 := by
  constructor
  · constructor
    · intro j
      rw [Set.mem_Icc]
      constructor <;> norm_num [criticEx]
    · rfl
  · have hhid : ∀ j, Critic.hidden criticEx zState zAction j = 0.1 := by
      intro j
      unfold Critic.hidden criticEx linear prelu
      norm_num
    have hterm : ∀ j : Fin 128,
        criticEx.fcOutW j * Critic.hidden criticEx zState zAction j =
          0.002 * 0.1 := by
      intro j
      rw [hhid j]
      norm_num [criticEx]
    have hfwd : Critic.forward criticEx zState zAction = 0.256 := by
      unfold Critic.forward
      rw [Finset.sum_congr rfl fun j _ => hterm j]
      rw [Finset.sum_const, Finset.card_univ, Fintype.card_fin, nsmul_eq_mul]
      norm_num [criticEx]
    rw [hfwd]
    rw [abs_of_pos (by norm_num)]
    norm_num

/-- C5 (amended): with the output head inside the stated initialization
support, the critic's output is bounded by `0.03` times the ℓ¹ norm of the
128-dimensional hidden activation — the original `±0.03` bound holds exactly
when that norm is at most 1, which the architecture does not guarantee. -/
theorem C5_critic_head_bound {stateDim actionDim seqLen : ℕ}
    (C : Critic stateDim actionDim seqLen) (hInit : Critic.headInit C)
    (state : Fin (seqLen + 1) → Fin stateDim → ℝ)
    (action : Fin actionDim → ℝ) :
    |C.forward state action| ≤
      0.03 * ∑ j, |C.hidden state action j| := by
  obtain ⟨hW, hB⟩ := hInit
  unfold Critic.forward
  rw [hB, add_zero, abs_mul]
  calc |∑ j, C.fcOutW j * C.hidden state action j| * |(10 : ℝ)|
      = |∑ j, C.fcOutW j * C.hidden state action j| * 10 := by norm_num
    _ ≤ (∑ j, |C.fcOutW j * C.hidden state action j|) * 10 :=
        mul_le_mul_of_nonneg_right (Finset.abs_sum_le_sum_abs _ _)
          (by norm_num)
    _ ≤ (∑ j, 0.003 * |C.hidden state action j|) * 10 := by
        refine mul_le_mul_of_nonneg_right (Finset.sum_le_sum fun j _ => ?_)
          (by norm_num)
        rw [abs_mul]
        refine mul_le_mul_of_nonneg_right ?_ (abs_nonneg _)
        rw [abs_le]
        exact ⟨(Set.mem_Icc.mp (hW j)).1, (Set.mem_Icc.mp (hW j)).2⟩
    _ = 0.03 * ∑ j, |C.hidden state action j| := by
        rw [← Finset.mul_sum]
        ring

/-- C5 (amended), exercised: the bound at a concrete critic with a zero
output head. -/
theorem C5_witness :
    |Critic.forward criticZeroEx zState zAction| ≤
      0.03 * ∑ j, |Critic.hidden criticZeroEx zState zAction j| :=
  C5_critic_head_bound criticZeroEx
    ⟨fun j => Set.mem_Icc.mpr (by constructor <;> norm_num [criticZeroEx]),
      rfl⟩ zState zAction

/-! ## C6 -/

/-- C6: the sequence encoder projects each timestep through the learned
linear map, the normalization and the bounded nonlinearity — every component
of the embedded timestep lies strictly in `(-1, 1)` — and the whole forward
pass agrees with the spec's contract: add the positional signal, run the one
self-attention+feed-forward block, and keep only the final timestep. -/
theorem C6_encoder_structure {dIn dModel seqLen : ℕ}
    (E : StableTransformerEncoder dIn dModel seqLen)
    (src : Fin (seqLen + 1) → Fin dIn → ℝ) :
    (∀ t i, -1 < E.inpEmbedding (src t) i ∧ E.inpEmbedding (src t) i < 1)
    ∧ E.forward src = encoderContract E src := by
  constructor
  · intro t i
    exact tanh_mem_Ioo _
  · rfl

/-! ## C7 -/

/-- A triple of checkpoint loads succeeds exactly when each of the three
individual loads (actor, critic_1, critic_2) succeeds. -/
theorem loadTriple_ok_iff {E P : Type} (load : String → Except E P)
    (tag : String) :
    (∃ r, loadTriple load tag = Except.ok r) ↔
      ((∃ x, load (ckptFile tag "actor") = Except.ok x) ∧
       (∃ x, load (ckptFile tag "critic_1") = Except.ok x) ∧
       (∃ x, load (ckptFile tag "critic_2") = Except.ok x)) := by
  unfold loadTriple
  cases ha : load (ckptFile tag "actor") <;>
    cases hc1 : load (ckptFile tag "critic_1") <;>
      cases hc2 : load (ckptFile tag "critic_2") <;>
        simp [ha, hc1, hc2]

/-- C7: in test mode, a best-checkpoint triple that fully loads is used as
is; failure of any of the three best loads triggers exactly one fallback —
loading all three networks from the "last" files — and a failure there
propagates as the final error, with no further fallback. -/
theorem C7_test_mode_fallback {E P : Type} (load : String → Except E P) :
    (∀ tag, (∃ r, loadTriple load tag = Except.ok r) ↔
        ((∃ x, load (ckptFile tag "actor") = Except.ok x) ∧
         (∃ x, load (ckptFile tag "critic_1") = Except.ok x) ∧
         (∃ x, load (ckptFile tag "critic_2") = Except.ok x)))
    ∧ (∀ r, loadTriple load "best" = Except.ok r →
        testModeLoad load = Except.ok r)
    ∧ (∀ e, loadTriple load "best" = Except.error e →
        testModeLoad load = loadTriple load "last")
    ∧ (∀ e e2, loadTriple load "best" = Except.error e →
        loadTriple load "last" = Except.error e2 →
        testModeLoad load = Except.error e2) := by
  refine ⟨fun tag => loadTriple_ok_iff load tag, ?_, ?_, ?_⟩
  · intro r h
    unfold testModeLoad
    rw [h]
  · intro e h
    unfold testModeLoad
    rw [h]
  · intro e e2 h h2
    unfold testModeLoad
    rw [h, h2]

/-- A concrete loader for which all three "best" files load. -/
def loadBestOkEx : String → Except String ℕ := fun f =>
  if f = ckptFile "best" "actor" then Except.ok 10
  else if f = ckptFile "best" "critic_1" then Except.ok 11
  else if f = ckptFile "best" "critic_2" then Except.ok 12
  else Except.error "missing"

/-- C7, exercised: with all three best files loadable no fallback happens and
the best parameters are returned. -/
theorem C7_witness : testModeLoad loadBestOkEx = Except.ok (10, 11, 12) :=
  (C7_test_mode_fallback loadBestOkEx).2.1 (10, 11, 12) (by rfl)

/-! ## C8 -/

/-- C8 is false as stated: invoked with the unrecognized mode value `"foo"`,
the program terminates during argument parsing with exit status 2 (argparse
rejects the invalid choice); it does not reach the print-and-continue
`"Wrong flag!"` branch. -/
theorem C8_counterexample :
    td3MlpDispatch (some "foo") = ProgramStep.exitWithCode 2
      ∧ td3MlpDispatch (some "foo") ≠ ProgramStep.printWrongFlag := by
  constructor
  · rfl
  · intro h
    exact ProgramStep.noConfusion (h.symm.trans rfl)

/-- C8 (amended): an unrecognized mode value is rejected by argparse, which
prints its usage message and terminates the process with exit status 2; the
module's `"Wrong flag!"` print-and-continue branch is unreachable for every
command line. -/
theorem C8_invalid_flag_exits {v : String} (hv1 : v ≠ "train")
    (hv2 : v ≠ "test") :
    td3MlpDispatch (some v) = ProgramStep.exitWithCode 2
    ∧ ∀ arg, td3MlpDispatch arg ≠ ProgramStep.printWrongFlag := by
  constructor
  · simp [td3MlpDispatch, argparseFlag, hv1, hv2]
  · intro arg
    cases arg with
    | none => simp [td3MlpDispatch, argparseFlag]
    | some w =>
        by_cases h1 : w = "train"
        · simp [td3MlpDispatch, argparseFlag, h1]
        · by_cases h2 : w = "test"
          · simp [td3MlpDispatch, argparseFlag, h1, h2]
          · simp [td3MlpDispatch, argparseFlag, h1, h2]

/-- C8 (amended), exercised at the concrete mode value `"foo"`. -/
theorem C8_witness :
    td3MlpDispatch (some "foo") = ProgramStep.exitWithCode 2
    ∧ ∀ arg, td3MlpDispatch arg ≠ ProgramStep.printWrongFlag :=
  C8_invalid_flag_exits (by decide) (by decide)

end TD3Walker
